import Mathlib

/-!
Verification of the go-bindata generated asset bundle.

The repository ships two generated variants of the same four-asset bundle
("in/a/test.asset", "in/b/test.asset", "in/c/test.asset", "in/test.asset",
each holding the 15 bytes of "// sample file\n"):
one that embeds gzip-compressed payloads and decompresses them through
bindataRead, and one that embeds the raw bytes verbatim.  Both expose the
same runtime API: Asset, MustAsset, AssetInfo, AssetNames, AssetDir,
RestoreAsset and RestoreAssets over the flat table _bindata and the tree
_bintree.

Byte slices are modelled as lists of naturals below 256, Go (value, error)
pairs as Except, and the gzip codec (a Go standard-library collaborator of
the generated code) is modelled by an executable RFC 1951/1952 decoder
covering the stored and fixed-Huffman block types the embedded streams use,
together with the CRC-32 trailer check.  Filesystem effects of the restore
functions are modelled by explicit state passing with an error oracle.
-/

set_option maxRecDepth 100000

namespace GoBindata

/-- Go byte slices: lists of naturals below 256. -/
abbrev Bytes := List Nat

/-! ## Bit-level utilities for the DEFLATE model -/

/-- The eight bits of a byte, least-significant first (DEFLATE bit order). -/
def byteBits (b : Nat) : List Bool :=
  (List.range 8).map (fun i => (b >>> i) % 2 == 1)

/-- All bits of a byte sequence, in DEFLATE bit order. -/
def toBits (data : Bytes) : List Bool :=
  data.foldr (fun b acc => byteBits b ++ acc) []

/-- Read n bits as an integer, least-significant bit first. -/
def takeBits : Nat → List Bool → Option (Nat × List Bool)
  | 0, bs => some (0, bs)
  | _ + 1, [] => none
  | n + 1, b :: bs =>
    match takeBits n bs with
    | some (v, rest) => some ((if b then 1 else 0) + 2 * v, rest)
    | none => none

/-- Read n bits accumulating most-significant first (Huffman code order). -/
def takeBitsMSB : Nat → Nat → List Bool → Option (Nat × List Bool)
  | 0, acc, bs => some (acc, bs)
  | _ + 1, _, [] => none
  | n + 1, acc, b :: bs => takeBitsMSB n (acc * 2 + (if b then 1 else 0)) bs

/-- Discard bits up to the next byte boundary. -/
def alignByte (bs : List Bool) : List Bool := bs.drop (bs.length % 8)

/-! ## DEFLATE (RFC 1951), stored and fixed-Huffman block types -/

/-- Length symbols 257..285 as pairs of base match length and count of
extra bits, indexed by symbol minus 257. -/
def lenPairs : List (Nat × Nat) :=
  [(3, 0), (4, 0), (5, 0), (6, 0), (7, 0), (8, 0), (9, 0), (10, 0),
   (11, 1), (13, 1), (15, 1), (17, 1), (19, 2), (23, 2), (27, 2), (31, 2),
   (35, 3), (43, 3), (51, 3), (59, 3), (67, 4), (83, 4), (99, 4), (115, 4),
   (131, 5), (163, 5), (195, 5), (227, 5), (258, 0)]

/-- Distance symbols 0..29 as pairs of base distance and count of extra
bits. -/
def dstPairs : List (Nat × Nat) :=
  [(1, 0), (2, 0), (3, 0), (4, 0), (5, 1), (7, 1), (9, 2), (13, 2),
   (17, 3), (25, 3), (33, 4), (49, 4), (65, 5), (97, 5), (129, 6), (193, 6),
   (257, 7), (385, 7), (513, 8), (769, 8), (1025, 9), (1537, 9),
   (2049, 10), (3073, 10), (4097, 11), (6145, 11), (8193, 12), (12289, 12),
   (16385, 13), (24577, 13)]

/-- Decode one fixed-Huffman literal/length symbol (RFC 1951, 3.2.6). -/
def decodeFixedLit (bs : List Bool) : Option (Nat × List Bool) :=
  match takeBitsMSB 7 0 bs with
  | none => none
  | some (c7, bs) =>
    if c7 < 24 then some (256 + c7, bs)
    else
      match takeBitsMSB 1 c7 bs with
      | none => none
      | some (c8, bs) =>
        if c8 < 192 then some (c8 - 48, bs)
        else if c8 < 200 then some (280 + (c8 - 192), bs)
        else
          match takeBitsMSB 1 c8 bs with
          | none => none
          | some (c9, bs) =>
            if c9 ≤ 511 then some (144 + (c9 - 400), bs) else none

/-- Copy a match of the given length from dist bytes back in the
(reversed) output window; overlapping copies behave as in LZ77. -/
def copyBack (dist : Nat) : Nat → List Nat → Option (List Nat)
  | 0, out => some out
  | len + 1, out =>
    match out[dist - 1]? with
    | none => none
    | some byte => copyBack dist len (byte :: out)

/-- Run one fixed-Huffman compressed block; output accumulated in reverse.
The fuel bounds the number of decoded symbols by the number of input bits. -/
def runFixed : Nat → List Nat → List Bool → Option (List Nat × List Bool)
  | 0, _, _ => none
  | fuel + 1, out, bs =>
    match decodeFixedLit bs with
    | none => none
    | some (sym, bs) =>
      if sym = 256 then some (out, bs)
      else if sym < 256 then runFixed fuel (sym :: out) bs
      else if sym ≤ 285 then
        match takeBits (lenPairs.getD (sym - 257) (0, 0)).2 bs with
        | none => none
        | some (ebits, bs) =>
          match takeBitsMSB 5 0 bs with
          | none => none
          | some (dsym, bs) =>
            if dsym < 30 then
              match takeBits (dstPairs.getD dsym (0, 0)).2 bs with
              | none => none
              | some (dbits, bs) =>
                match copyBack ((dstPairs.getD dsym (0, 0)).1 + dbits)
                    ((lenPairs.getD (sym - 257) (0, 0)).1 + ebits) out with
                | none => none
                | some out => runFixed fuel out bs
            else none
      else none

/-- Read n whole bytes from a byte-aligned bit stream, accumulated in reverse. -/
def readAlignedBytes : Nat → List Nat → List Bool → Option (List Nat × List Bool)
  | 0, out, bs => some (out, bs)
  | n + 1, out, bs =>
    match takeBits 8 bs with
    | none => none
    | some (byte, bs) => readAlignedBytes n (byte :: out) bs

/-- Process DEFLATE blocks until the final one; output accumulated in reverse.
Dynamic-Huffman blocks (BTYPE 2) are rejected: the streams the generator
emits for these assets consist of fixed-Huffman and stored blocks only. -/
def inflateLoop : Nat → List Nat → List Bool → Option (List Nat × List Bool)
  | 0, _, _ => none
  | fuel + 1, out, bs =>
    match takeBits 1 bs with
    | none => none
    | some (bfinal, bs) =>
      match takeBits 2 bs with
      | none => none
      | some (btype, bs) =>
        let step : Option (List Nat × List Bool) :=
          if btype = 0 then
            let bs := alignByte bs
            match takeBits 16 bs with
            | none => none
            | some (len, bs) =>
              match takeBits 16 bs with
              | none => none
              | some (nlen, bs) =>
                if len ^^^ 65535 = nlen then readAlignedBytes len out bs else none
          else if btype = 1 then runFixed (bs.length + 1) out bs
          else none
        match step with
        | none => none
        | some (out, bs) =>
          if bfinal = 1 then some (out, bs) else inflateLoop fuel out bs

/-! ## gzip framing (RFC 1952) with CRC-32 trailer verification -/

/-- One bit step of the CRC-32 (IEEE 802.3) shift register. -/
def crcBit (c : Nat) : Nat :=
  if c % 2 = 1 then (c / 2) ^^^ 0xEDB88320 else c / 2

/-- Eight CRC-32 bit steps, one byte worth. -/
def crcByte (c : Nat) : Nat :=
  crcBit (crcBit (crcBit (crcBit (crcBit (crcBit (crcBit (crcBit c)))))))

/-- CRC-32 (IEEE 802.3) of a byte sequence, as stored in the gzip trailer. -/
def crc32 (data : Bytes) : Nat :=
  (data.foldl (fun c b => crcByte (c ^^^ b)) 0xFFFFFFFF) ^^^ 0xFFFFFFFF

/-- gzip header: the two magic bytes, CM = 8 (deflate), FLG, then MTIME,
XFL and OS which the reader skips.  The embedded streams carry FLG = 0;
optional header fields of other streams are not modelled. -/
def gzipHeader : Bytes → Except String Bytes
  | 0x1f :: 0x8b :: 8 :: flg :: _ :: _ :: _ :: _ :: _ :: _ :: rest =>
    if flg = 0 then Except.ok rest
    else Except.error "gzip: header flags not modelled"
  | _ => Except.error "gzip: invalid header"

/-- Reading the gzip body to EOF: inflate the DEFLATE stream, then verify
the CRC-32 and ISIZE trailer words.  This is where the Go reader reports
checksum and framing failures. -/
def gzipReadAll (body : Bytes) : Except String Bytes :=
  let bs := toBits body
  match inflateLoop (bs.length + 1) [] bs with
  | none => Except.error "flate: corrupt input"
  | some (outRev, bs) =>
    let out := outRev.reverse
    let bs := alignByte bs
    match takeBits 32 bs with
    | none => Except.error "unexpected EOF"
    | some (digest, bs) =>
      match takeBits 32 bs with
      | none => Except.error "unexpected EOF"
      | some (isize, _) =>
        if digest = crc32 out ∧ isize = out.length % 4294967296 then Except.ok out
        else Except.error "gzip: invalid checksum"

/-- The complete gzip decode: header, body, trailer. -/
def gzipDecode (data : Bytes) : Except String Bytes :=
  match gzipHeader data with
  | Except.error e => Except.error e
  | Except.ok body => gzipReadAll body

/-- Close on Go's flate reader reports the sticky read error and nil after a
read that ended at EOF, so the close error coincides with the copy error. -/
def gzipClose (copyErr : Option String) : Option String := copyErr

/-- bindataRead from the generated file: open a gzip reader over the data,
copy it into a buffer, close the reader; the reader-construction and copy
errors are wrapped as Read errors.  When only Close fails the Go code runs
return nil, err with err provably nil at that point, modelled as
Except.ok []. -/
def bindataRead (data : Bytes) (name : String) : Except String Bytes :=
  match gzipHeader data with
  | Except.error e => Except.error ("Read \"" ++ name ++ "\": " ++ e)
  | Except.ok body =>
    let copied := gzipReadAll body
    let err : Option String :=
      match copied with
      | Except.ok _ => none
      | Except.error e => some e
    let buf : Bytes :=
      match copied with
      | Except.ok b => b
      | Except.error _ => []
    let clErr := gzipClose err
    match err with
    | some e => Except.error ("Read \"" ++ name ++ "\": " ++ e)
    | none =>
      match clErr with
      | some _ => Except.ok []
      | none => Except.ok buf

/-! ## String helpers used by the generated runtime -/

/-- Character-wise replacement; strings.Replace(s, "\\", "/", -1) instantiates it. -/
def replaceChar (a b : Char) (s : String) : String :=
  String.mk (s.data.map (fun c => if c = a then b else c))

/-- Worker for strings.Split with a one-character separator. -/
def splitChar (sep : Char) : List Char → List Char → List String
  | [], acc => [String.mk acc.reverse]
  | c :: rest, acc =>
    if c = sep then String.mk acc.reverse :: splitChar sep rest []
    else splitChar sep rest (c :: acc)

/-- strings.Split(s, "/"). -/
def splitSlash (s : String) : List String := splitChar '/' s.data []

/-- Joining path segments with "/". -/
def joinSlash : List String → String
  | [] => ""
  | [s] => s
  | s :: rest => s ++ "/" ++ joinSlash rest

/-- The canonical name used by every lookup in the generated code:
strings.Replace(name, "\\", "/", -1). -/
def cannonicalName (name : String) : String := replaceChar '\\' '/' name

/-- The bytes of a Go string literal (all embedded content is ASCII). -/
def strBytes (s : String) : Bytes := s.data.map Char.toNat

/-! ## Data model of the generated bundle -/

/-- bindataFileInfo: the os.FileInfo implementation the generated code
attaches to every asset (mode as the numeric os.FileMode, modTime as the
Unix timestamp passed to time.Unix). -/
structure bindataFileInfo where
  name : String
  size : Int
  mode : Nat
  modTime : Int
deriving DecidableEq

/-- Method Name of bindataFileInfo. -/
def bindataFileInfo.Name (fi : bindataFileInfo) : String := fi.name

/-- Method Size of bindataFileInfo. -/
def bindataFileInfo.Size (fi : bindataFileInfo) : Int := fi.size

/-- Method Mode of bindataFileInfo. -/
def bindataFileInfo.Mode (fi : bindataFileInfo) : Nat := fi.mode

/-- Method ModTime of bindataFileInfo. -/
def bindataFileInfo.ModTime (fi : bindataFileInfo) : Int := fi.modTime

/-- Method IsDir of bindataFileInfo: the generated code always answers false. -/
def bindataFileInfo.IsDir (_ : bindataFileInfo) : Bool := false

/-- Method Sys of bindataFileInfo: the generated code always answers nil. -/
def bindataFileInfo.Sys (_ : bindataFileInfo) : Option Unit := none

/-- An asset: content bytes paired with the file-info snapshot. -/
structure asset where
  bytes : Bytes
  info : bindataFileInfo
deriving DecidableEq

/-- The four generated loader functions, as first-class names so that the
table and the tree can be compared for holding the same loader. -/
inductive AssetFn where
  | in_a_test_asset
  | in_b_test_asset
  | in_c_test_asset
  | in_test_asset
deriving DecidableEq

/-- The bintree node type of the generated file: a loader (nil for interior
nodes) plus a children map, modelled as an association list. -/
inductive bintree where
  | mk (fn : Option AssetFn) (children : List (String × bintree)) : bintree

/-- Field Func of a bintree node. -/
def bintree.Func : bintree → Option AssetFn
  | .mk fn _ => fn

/-- Field Children of a bintree node. -/
def bintree.Children : bintree → List (String × bintree)
  | .mk _ children => children

/-- Go map indexing node.Children[p]: nil (none) when the key is absent. -/
def childLookup : List (String × bintree) → String → Option bintree
  | [], _ => none
  | (k, t) :: rest, p => if k = p then some t else childLookup rest p

/-- The descent loop of AssetDir: node = node.Children[p] for each path
segment, stopping with none as soon as a segment is absent. -/
def descend : bintree → List String → Option bintree
  | node, [] => some node
  | node, p :: ps =>
    match childLookup node.Children p with
    | none => none
    | some next => descend next ps

/-- Collect the leaves of every child subtree, prefixing the child segment;
the subtree collector is passed in so the recursion is structural. -/
def collectEach (f : bintree → List (List String × AssetFn)) :
    List (String × bintree) → List (List String × AssetFn)
  | [] => []
  | (k, c) :: rest => ((f c).map (fun pr => (k :: pr.1, pr.2))) ++ collectEach f rest

/-- All loader-holding nodes of a tree with their segment paths, to the
given depth bound (the concrete tree has depth 3). -/
def treeLeaves : Nat → bintree → List (List String × AssetFn)
  | 0, _ => []
  | fuel + 1, node =>
    (match node.Func with
     | some f => [([], f)]
     | none => []) ++ collectEach (treeLeaves fuel) node.Children

/-! ## The compressed variant of the generated bundle -/

namespace Compressed

/-- The embedded gzip stream of in/a/test.asset. -/
def _in_a_test_asset : Bytes :=
  [0x1f, 0x8b, 0x08, 0x00, 0x00, 0x09, 0x6e, 0x88, 0x00, 0xff,
   0xd2, 0xd7, 0x57, 0x28, 0x4e, 0xcc, 0x2d, 0xc8, 0x49, 0x55,
   0x48, 0xcb, 0xcc, 0x49, 0xe5, 0x02, 0x04, 0x00, 0x00, 0xff, 0xff,
   0x8a, 0x82, 0x8c, 0x85, 0x0f, 0x00, 0x00, 0x00]

/-- Loader body for in/a/test.asset: decompress the embedded stream. -/
def in_a_test_asset_bytes : Except String Bytes :=
  bindataRead _in_a_test_asset "in/a/test.asset"

/-- Loader for in/a/test.asset: bytes plus the recorded file info. -/
def in_a_test_asset : Except String asset :=
  match in_a_test_asset_bytes with
  | Except.error e => Except.error e
  | Except.ok bytes =>
    Except.ok { bytes := bytes,
                info := { name := "in/a/test.asset", size := 15, mode := 420,
                          modTime := 1431385279 } }

/-- The embedded gzip stream of in/b/test.asset. -/
def _in_b_test_asset : Bytes :=
  [0x1f, 0x8b, 0x08, 0x00, 0x00, 0x09, 0x6e, 0x88, 0x00, 0xff,
   0xd2, 0xd7, 0x57, 0x28, 0x4e, 0xcc, 0x2d, 0xc8, 0x49, 0x55,
   0x48, 0xcb, 0xcc, 0x49, 0xe5, 0x02, 0x04, 0x00, 0x00, 0xff, 0xff,
   0x8a, 0x82, 0x8c, 0x85, 0x0f, 0x00, 0x00, 0x00]

/-- Loader body for in/b/test.asset. -/
def in_b_test_asset_bytes : Except String Bytes :=
  bindataRead _in_b_test_asset "in/b/test.asset"

/-- Loader for in/b/test.asset. -/
def in_b_test_asset : Except String asset :=
  match in_b_test_asset_bytes with
  | Except.error e => Except.error e
  | Except.ok bytes =>
    Except.ok { bytes := bytes,
                info := { name := "in/b/test.asset", size := 15, mode := 420,
                          modTime := 1430781941 } }

/-- The embedded gzip stream of in/c/test.asset. -/
def _in_c_test_asset : Bytes :=
  [0x1f, 0x8b, 0x08, 0x00, 0x00, 0x09, 0x6e, 0x88, 0x00, 0xff,
   0xd2, 0xd7, 0x57, 0x28, 0x4e, 0xcc, 0x2d, 0xc8, 0x49, 0x55,
   0x48, 0xcb, 0xcc, 0x49, 0xe5, 0x02, 0x04, 0x00, 0x00, 0xff, 0xff,
   0x8a, 0x82, 0x8c, 0x85, 0x0f, 0x00, 0x00, 0x00]

/-- Loader body for in/c/test.asset. -/
def in_c_test_asset_bytes : Except String Bytes :=
  bindataRead _in_c_test_asset "in/c/test.asset"

/-- Loader for in/c/test.asset. -/
def in_c_test_asset : Except String asset :=
  match in_c_test_asset_bytes with
  | Except.error e => Except.error e
  | Except.ok bytes =>
    Except.ok { bytes := bytes,
                info := { name := "in/c/test.asset", size := 15, mode := 420,
                          modTime := 1430781941 } }

/-- The embedded gzip stream of in/test.asset. -/
def _in_test_asset : Bytes :=
  [0x1f, 0x8b, 0x08, 0x00, 0x00, 0x09, 0x6e, 0x88, 0x00, 0xff,
   0xd2, 0xd7, 0x57, 0x28, 0x4e, 0xcc, 0x2d, 0xc8, 0x49, 0x55,
   0x48, 0xcb, 0xcc, 0x49, 0xe5, 0x02, 0x04, 0x00, 0x00, 0xff, 0xff,
   0x8a, 0x82, 0x8c, 0x85, 0x0f, 0x00, 0x00, 0x00]

/-- Loader body for in/test.asset. -/
def in_test_asset_bytes : Except String Bytes :=
  bindataRead _in_test_asset "in/test.asset"

/-- Loader for in/test.asset. -/
def in_test_asset : Except String asset :=
  match in_test_asset_bytes with
  | Except.error e => Except.error e
  | Except.ok bytes =>
    Except.ok { bytes := bytes,
                info := { name := "in/test.asset", size := 15, mode := 420,
                          modTime := 1430781941 } }

/-- Calling a loader by name (compressed variant). -/
def runAssetFn : AssetFn → Except String asset
  | AssetFn.in_a_test_asset => in_a_test_asset
  | AssetFn.in_b_test_asset => in_b_test_asset
  | AssetFn.in_c_test_asset => in_c_test_asset
  | AssetFn.in_test_asset => in_test_asset

end Compressed

/-! ## The raw (no-compress) variant of the generated bundle -/

namespace Raw

/-- The embedded raw bytes of in/a/test.asset. -/
def _in_a_test_asset : Bytes := strBytes "// sample file\n"

/-- Loader body for in/a/test.asset: the stored bytes, verbatim. -/
def in_a_test_asset_bytes : Except String Bytes := Except.ok _in_a_test_asset

/-- Loader for in/a/test.asset. -/
def in_a_test_asset : Except String asset :=
  match in_a_test_asset_bytes with
  | Except.error e => Except.error e
  | Except.ok bytes =>
    Except.ok { bytes := bytes,
                info := { name := "in/a/test.asset", size := 15, mode := 420,
                          modTime := 1430781941 } }

/-- The embedded raw bytes of in/b/test.asset. -/
def _in_b_test_asset : Bytes := strBytes "// sample file\n"

/-- Loader body for in/b/test.asset. -/
def in_b_test_asset_bytes : Except String Bytes := Except.ok _in_b_test_asset

/-- Loader for in/b/test.asset. -/
def in_b_test_asset : Except String asset :=
  match in_b_test_asset_bytes with
  | Except.error e => Except.error e
  | Except.ok bytes =>
    Except.ok { bytes := bytes,
                info := { name := "in/b/test.asset", size := 15, mode := 420,
                          modTime := 1430781941 } }

/-- The embedded raw bytes of in/c/test.asset. -/
def _in_c_test_asset : Bytes := strBytes "// sample file\n"

/-- Loader body for in/c/test.asset. -/
def in_c_test_asset_bytes : Except String Bytes := Except.ok _in_c_test_asset

/-- Loader for in/c/test.asset. -/
def in_c_test_asset : Except String asset :=
  match in_c_test_asset_bytes with
  | Except.error e => Except.error e
  | Except.ok bytes =>
    Except.ok { bytes := bytes,
                info := { name := "in/c/test.asset", size := 15, mode := 420,
                          modTime := 1430781941 } }

/-- The embedded raw bytes of in/test.asset. -/
def _in_test_asset : Bytes := strBytes "// sample file\n"

/-- Loader body for in/test.asset. -/
def in_test_asset_bytes : Except String Bytes := Except.ok _in_test_asset

/-- Loader for in/test.asset. -/
def in_test_asset : Except String asset :=
  match in_test_asset_bytes with
  | Except.error e => Except.error e
  | Except.ok bytes =>
    Except.ok { bytes := bytes,
                info := { name := "in/test.asset", size := 15, mode := 420,
                          modTime := 1430781941 } }

/-- Calling a loader by name (raw variant). -/
def runAssetFn : AssetFn → Except String asset
  | AssetFn.in_a_test_asset => in_a_test_asset
  | AssetFn.in_b_test_asset => in_b_test_asset
  | AssetFn.in_c_test_asset => in_c_test_asset
  | AssetFn.in_test_asset => in_test_asset

end Raw

/-! ## The table and tree (identical in both generated variants) -/

/-- _bindata: the flat table mapping each asset name to its loader. -/
def _bindata : List (String × AssetFn) :=
  [("in/a/test.asset", AssetFn.in_a_test_asset),
   ("in/b/test.asset", AssetFn.in_b_test_asset),
   ("in/c/test.asset", AssetFn.in_c_test_asset),
   ("in/test.asset", AssetFn.in_test_asset)]

/-- Go map lookup _bindata[name] with its ok flag, as an Option. -/
def lookupTable : List (String × AssetFn) → String → Option AssetFn
  | [], _ => none
  | (k, f) :: rest, name => if k = name then some f else lookupTable rest name

/-- _bintree: the hierarchical mirror of the asset paths. -/
def _bintree : bintree :=
  .mk none
    [("in", .mk none
      [("a", .mk none [("test.asset", .mk (some AssetFn.in_a_test_asset) [])]),
       ("b", .mk none [("test.asset", .mk (some AssetFn.in_b_test_asset) [])]),
       ("c", .mk none [("test.asset", .mk (some AssetFn.in_c_test_asset) [])]),
       ("test.asset", .mk (some AssetFn.in_test_asset) [])])]

/-- A generated bundle: its loader dispatcher plus the shared table and
tree.  The two generated files differ only in the loaders. -/
structure Bundle where
  run : AssetFn → Except String asset
  table : List (String × AssetFn)
  tree : bintree

/-- The compressed generated file as a bundle. -/
def CompressedBundle : Bundle :=
  { run := Compressed.runAssetFn, table := _bindata, tree := _bintree }

/-- The raw generated file as a bundle. -/
def RawBundle : Bundle :=
  { run := Raw.runAssetFn, table := _bindata, tree := _bintree }

/-! ## The runtime access API of the generated files -/

/-- The error text fmt.Errorf("Asset %s not found", name) produces; both
Asset and AssetDir use this same wording for every failure they report. -/
def errNotFound (name : String) : String := "Asset " ++ name ++ " not found"

/-- Asset: canonicalize the name, look it up in _bindata; on a hit call the
loader and return its bytes (wrapping loader errors), on a miss report the
not-found error naming the requested path. -/
def Asset (B : Bundle) (name : String) : Except String Bytes :=
  match lookupTable B.table (cannonicalName name) with
  | some f =>
    (match B.run f with
     | Except.error err =>
       Except.error ("Asset " ++ name ++ " can't read by error: " ++ err)
     | Except.ok a => Except.ok a.bytes)
  | none => Except.error (errNotFound name)

/-- The outcome of MustAsset: either the bytes or a fatal abort carrying
the Go panic message. -/
inductive MustResult where
  | fatal (msg : String)
  | val (bs : Bytes)
deriving DecidableEq

/-- MustAsset: like Asset but aborting when Asset would return an error. -/
def MustAsset (B : Bundle) (name : String) : MustResult :=
  match Asset B name with
  | Except.error err => MustResult.fatal ("asset: Asset(" ++ name ++ "): " ++ err)
  | Except.ok a => MustResult.val a

/-- AssetInfo: same lookup discipline as Asset, returning the file info. -/
def AssetInfo (B : Bundle) (name : String) : Except String bindataFileInfo :=
  match lookupTable B.table (cannonicalName name) with
  | some f =>
    (match B.run f with
     | Except.error err =>
       Except.error ("AssetInfo " ++ name ++ " can't read by error: " ++ err)
     | Except.ok a => Except.ok a.info)
  | none => Except.error ("AssetInfo " ++ name ++ " not found")

/-- AssetNames: the keys of _bindata. -/
def AssetNames (B : Bundle) : List String := B.table.map Prod.fst

/-- AssetDir: for a nonempty name, canonicalize, split on "/" and descend
the tree, failing with the not-found error when a segment is absent; the
empty name addresses the root.  A resolved node holding a loader is also
reported with the very same not-found error; otherwise the child segment
names are returned. -/
def AssetDir (B : Bundle) (name : String) : Except String (List String) :=
  let nodeRes : Option bintree :=
    if name.length ≠ 0 then
      descend B.tree (splitSlash (cannonicalName name))
    else some B.tree
  match nodeRes with
  | none => Except.error (errNotFound name)
  | some node =>
    if node.Func ≠ none then Except.error (errNotFound name)
    else Except.ok (node.Children.map Prod.fst)

/-! ## The restore operations, over an explicit filesystem model -/

/-- Injectable failures for the three filesystem calls RestoreAsset makes,
keyed by the target path. -/
structure FSOracle where
  mkdirErr : String → Option String
  writeErr : String → Option String
  chtimesErr : String → Option String

/-- The observable filesystem effects: directories created and files
written (with their content), in order. -/
structure FSState where
  dirs : List String
  written : List (String × Bytes)
deriving DecidableEq

/-- The initial, empty filesystem trace. -/
def emptyFS : FSState := { dirs := [], written := [] }

/-- path.Dir: everything before the final slash, "." when there is none. -/
def pathDir (p : String) : String :=
  let parts := splitSlash p
  if parts.length ≤ 1 then "." else joinSlash parts.dropLast

/-- path.Join of two already-clean segments. -/
def pathJoin (a b : String) : String :=
  if a = "" then b else a ++ "/" ++ b

/-- _filePath: filepath.Join(dir, split(cannonicalName(name))...); empty
and "." segments are dropped the way Clean would. -/
def _filePath (dir name : String) : String :=
  joinSlash ((dir :: splitSlash (cannonicalName name)).filter
    (fun s => !(s == "") && !(s == ".")))

/-- RestoreAsset: load bytes and info, create the parent directory, write
the file, stamp its times; the first failing step aborts with its error,
leaving the effects already performed in place. -/
def RestoreAsset (B : Bundle) (o : FSOracle) (st : FSState) (dir name : String) :
    Except String Unit × FSState :=
  match Asset B name with
  | Except.error e => (Except.error e, st)
  | Except.ok data =>
    match AssetInfo B name with
    | Except.error e => (Except.error e, st)
    | Except.ok _info =>
      match o.mkdirErr (_filePath dir (pathDir name)) with
      | some e => (Except.error e, st)
      | none =>
        let st1 : FSState := { st with dirs := st.dirs ++ [_filePath dir (pathDir name)] }
        match o.writeErr (_filePath dir name) with
        | some e => (Except.error e, st1)
        | none =>
          let st2 : FSState :=
            { st1 with written := st1.written ++ [(_filePath dir name, data)] }
          match o.chtimesErr (_filePath dir name) with
          | some e => (Except.error e, st2)
          | none => (Except.ok (), st2)

/-- The loop of RestoreAssets over a directory's children: restore each in
order, aborting on the first error.  The child-restorer is passed in so
the recursion is structural. -/
def restoreEach (f : String → FSState → Except String Unit × FSState) :
    List String → FSState → Except String Unit × FSState
  | [], st => (Except.ok (), st)
  | child :: rest, st =>
    match f child st with
    | (Except.error e, st1) => (Except.error e, st1)
    | (Except.ok _, st1) => restoreEach f rest st1

/-- RestoreAssets: names AssetDir rejects are restored as single files;
directory names are restored by recursing into every child.  The fuel
bounds the recursion depth (the concrete tree has depth 3). -/
def RestoreAssets (B : Bundle) (o : FSOracle) (dir : String) :
    Nat → String → FSState → Except String Unit × FSState
  | 0, _, st => (Except.error "recursion limit exceeded", st)
  | fuel + 1, name, st =>
    match AssetDir B name with
    | Except.error _ => RestoreAsset B o st dir name
    | Except.ok children =>
      restoreEach (fun child st1 => RestoreAssets B o dir fuel (pathJoin name child) st1)
        children st

/-! ## Helper lemmas -/

/-- The 15 bytes of the original file content, "// sample file\n". -/
def sampleContent : Bytes := strBytes "// sample file\n"

/-- The compressed loader of in/a/test.asset evaluates successfully. -/
theorem compressed_run_a : CompressedBundle.run AssetFn.in_a_test_asset =
    Except.ok { bytes := sampleContent,
                info := { name := "in/a/test.asset", size := 15, mode := 420,
                          modTime := 1431385279 } } := rfl

/-- The compressed loader of in/b/test.asset evaluates successfully. -/
theorem compressed_run_b : CompressedBundle.run AssetFn.in_b_test_asset =
    Except.ok { bytes := sampleContent,
                info := { name := "in/b/test.asset", size := 15, mode := 420,
                          modTime := 1430781941 } } := rfl

/-- The compressed loader of in/c/test.asset evaluates successfully. -/
theorem compressed_run_c : CompressedBundle.run AssetFn.in_c_test_asset =
    Except.ok { bytes := sampleContent,
                info := { name := "in/c/test.asset", size := 15, mode := 420,
                          modTime := 1430781941 } } := rfl

/-- The compressed loader of in/test.asset evaluates successfully. -/
theorem compressed_run_t : CompressedBundle.run AssetFn.in_test_asset =
    Except.ok { bytes := sampleContent,
                info := { name := "in/test.asset", size := 15, mode := 420,
                          modTime := 1430781941 } } := rfl

/-- The raw loader of in/a/test.asset evaluates successfully. -/
theorem raw_run_a : RawBundle.run AssetFn.in_a_test_asset =
    Except.ok { bytes := sampleContent,
                info := { name := "in/a/test.asset", size := 15, mode := 420,
                          modTime := 1430781941 } } := rfl

/-- The raw loader of in/b/test.asset evaluates successfully. -/
theorem raw_run_b : RawBundle.run AssetFn.in_b_test_asset =
    Except.ok { bytes := sampleContent,
                info := { name := "in/b/test.asset", size := 15, mode := 420,
                          modTime := 1430781941 } } := rfl

/-- The raw loader of in/c/test.asset evaluates successfully. -/
theorem raw_run_c : RawBundle.run AssetFn.in_c_test_asset =
    Except.ok { bytes := sampleContent,
                info := { name := "in/c/test.asset", size := 15, mode := 420,
                          modTime := 1430781941 } } := rfl

/-- The raw loader of in/test.asset evaluates successfully. -/
theorem raw_run_t : RawBundle.run AssetFn.in_test_asset =
    Except.ok { bytes := sampleContent,
                info := { name := "in/test.asset", size := 15, mode := 420,
                          modTime := 1430781941 } } := rfl

/-- A successful Asset and AssetInfo at one name come from one loader call. -/
theorem asset_components (B : Bundle) (name : String) (info : bindataFileInfo) (bs : Bytes)
    (h1 : AssetInfo B name = Except.ok info) (h2 : Asset B name = Except.ok bs) :
    ∃ fn a, lookupTable B.table (cannonicalName name) = some fn ∧
      B.run fn = Except.ok a ∧ info = a.info ∧ bs = a.bytes := by
  unfold AssetInfo at h1
  unfold Asset at h2
  cases hl : lookupTable B.table (cannonicalName name) with
  | none => rw [hl] at h1; exact absurd h1 (by simp)
  | some fn =>
    simp only [hl] at h1 h2
    cases hr : B.run fn with
    | error e => simp only [hr] at h1; exact absurd h1 (by simp)
    | ok a =>
      simp only [hr, Except.ok.injEq] at h1 h2
      exact ⟨fn, a, rfl, hr, h1.symm, h2.symm⟩

/-- Every compressed loader succeeds with 15 bytes recorded as size 15. -/
theorem compressed_loader_size (fn : AssetFn) (a : asset)
    (h : CompressedBundle.run fn = Except.ok a) :
    a.info.size = 15 ∧ a.bytes.length = 15 := by
  cases fn <;>
    simp only [compressed_run_a, compressed_run_b, compressed_run_c, compressed_run_t,
      Except.ok.injEq] at h <;>
    subst h <;> exact ⟨rfl, rfl⟩

/-- Every raw loader succeeds with 15 bytes recorded as size 15. -/
theorem raw_loader_size (fn : AssetFn) (a : asset)
    (h : RawBundle.run fn = Except.ok a) :
    a.info.size = 15 ∧ a.bytes.length = 15 := by
  cases fn <;>
    simp only [raw_run_a, raw_run_b, raw_run_c, raw_run_t, Except.ok.injEq] at h <;>
    subst h <;> exact ⟨rfl, rfl⟩

/-! ## C1 -/

/-- C1: every key of the flat table _bindata, split on "/", descends the
tree _bintree to a leaf (no children) holding the very loader registered
under that key; conversely the loader-holding nodes of _bintree, with
their paths joined back on "/", are exactly the entries of _bindata. -/
theorem bindata_bintree_agree :
    (∀ k fn, (k, fn) ∈ _bindata →
      ∃ node, descend _bintree (splitSlash k) = some node ∧
        node.Func = some fn ∧ node.Children = []) ∧
    (treeLeaves 8 _bintree).map (fun pr => (joinSlash pr.1, pr.2)) = _bindata := by
  constructor
  · intro k fn h
    simp only [_bindata, List.mem_cons, List.not_mem_nil, or_false, Prod.mk.injEq] at h
    rcases h with ⟨rfl, rfl⟩ | ⟨rfl, rfl⟩ | ⟨rfl, rfl⟩ | ⟨rfl, rfl⟩ <;>
      exact ⟨_, rfl, rfl, rfl⟩
  · rfl

/-- Witness for C1 at the key "in/a/test.asset". -/
theorem bindata_bintree_agree_witness :
    ∃ node, descend _bintree (splitSlash "in/a/test.asset") = some node ∧
      node.Func = some AssetFn.in_a_test_asset ∧ node.Children = [] :=
  bindata_bintree_agree.1 "in/a/test.asset" AssetFn.in_a_test_asset (by decide)

/-! ## C2 -/

/-- bindataRead agrees step by step with the complete gzip decode: it
wraps the decode's error and passes its bytes through. -/
theorem bindataRead_eq (data : Bytes) (name : String) :
    bindataRead data name =
      (match gzipDecode data with
       | Except.ok b => Except.ok b
       | Except.error e => Except.error ("Read \"" ++ name ++ "\": " ++ e)) := by
  unfold bindataRead gzipDecode gzipClose
  cases gzipHeader data with
  | error e => rfl
  | ok body =>
    dsimp only
    cases gzipReadAll body with
    | error e => rfl
    | ok b => rfl

/-- C2: bindataRead never swallows a decompression failure: whatever bytes
it returns successfully are the complete gzip decode of the payload (never
a silent truncation), and every checksum or framing error the decode
encounters is surfaced as a Read error naming the asset. -/
theorem bindataRead_surfaces_decode_errors (data : Bytes) (name : String) :
    (∀ b, bindataRead data name = Except.ok b → gzipDecode data = Except.ok b) ∧
    (∀ e, gzipDecode data = Except.error e →
      bindataRead data name = Except.error ("Read \"" ++ name ++ "\": " ++ e)) := by
  have heq := bindataRead_eq data name
  cases hg : gzipDecode data with
  | ok c =>
    simp only [hg] at heq
    constructor
    · intro b hb; rw [heq] at hb; exact hb
    · intro e he; exact Except.noConfusion he
  | error e =>
    simp only [hg] at heq
    constructor
    · intro b hb; rw [heq] at hb; exact Except.noConfusion hb
    · intro e' he'
      injection he' with he''
      subst he''
      exact heq

/-- Witness for C2: the embedded payload round-trips through the success
direction, and a corrupted payload (bad magic byte) through the error
direction. -/
theorem bindataRead_surfaces_decode_errors_witness :
    gzipDecode Compressed._in_a_test_asset = Except.ok sampleContent ∧
    bindataRead (0 :: Compressed._in_a_test_asset) "x" =
      Except.error ("Read \"x\": gzip: invalid header") :=
  ⟨(bindataRead_surfaces_decode_errors Compressed._in_a_test_asset "in/a/test.asset").1
      sampleContent (by rfl),
   (bindataRead_surfaces_decode_errors (0 :: Compressed._in_a_test_asset) "x").2
      "gzip: invalid header" (by rfl)⟩

/-! ## C3 -/

/-- C3 counterexample: at "in/test.asset" every path segment resolves and
the resolved node is a leaf holding a loader, yet AssetDir fails with
exactly the NotFound error text, the same condition an absent path such as
"in/zzz" produces — there is no distinct not-a-directory condition. -/
theorem assetDir_leaf_same_error :
    (descend _bintree (splitSlash (cannonicalName "in/test.asset"))).map bintree.Func =
      some (some AssetFn.in_test_asset) ∧
    AssetDir CompressedBundle "in/test.asset" =
      Except.error (errNotFound "in/test.asset") ∧
    AssetDir CompressedBundle "in/zzz" = Except.error (errNotFound "in/zzz") :=
  ⟨rfl, rfl, rfl⟩

/-- C3 amended: for a nonempty name, AssetDir fails when a path segment is
absent and also fails when every segment resolves but the node holds a
loader, but both failures carry the identical "Asset name not found" error
rather than a distinct not-a-directory condition. -/
theorem assetDir_failure_conditions (B : Bundle) (name : String)
    (hne : name.length ≠ 0) :
    (descend B.tree (splitSlash (cannonicalName name)) = none →
      AssetDir B name = Except.error (errNotFound name)) ∧
    (∀ node, descend B.tree (splitSlash (cannonicalName name)) = some node →
      node.Func ≠ none → AssetDir B name = Except.error (errNotFound name)) := by
  unfold AssetDir
  simp only [hne, ne_eq, not_false_iff, if_true]
  constructor
  · intro h; rw [h]
  · intro node h hf
    rw [h]
    simp only [hf, ne_eq, not_false_iff, if_true]

/-- Witness for C3's amended theorem at the leaf "in/test.asset". -/
theorem assetDir_failure_conditions_witness :
    AssetDir CompressedBundle "in/test.asset" =
      Except.error (errNotFound "in/test.asset") :=
  (assetDir_failure_conditions CompressedBundle "in/test.asset" (by decide)).2
    (bintree.mk (some AssetFn.in_test_asset) []) (by rfl) (by decide)

/-! ## C4 -/

/-- C4: Asset canonicalizes the name by turning every backslash into a
forward slash, then looks the canonical name up in _bindata: a miss yields
the NotFound error naming the requested path, and a hit runs the loader
(decompressing in the compressed variant) and returns the loader's bytes. -/
theorem asset_lookup_contract (B : Bundle) (name : String) :
    (lookupTable B.table (cannonicalName name) = none →
      Asset B name = Except.error (errNotFound name)) ∧
    (∀ fn a, lookupTable B.table (cannonicalName name) = some fn →
      B.run fn = Except.ok a → Asset B name = Except.ok a.bytes) := by
  unfold Asset
  constructor
  · intro h; rw [h]
  · intro fn a h1 h2; simp only [h1, h2]

/-- Witness for C4: a backslashed hit returns the decompressed bytes, and
a miss reports the requested path. -/
theorem asset_lookup_contract_witness :
    Asset CompressedBundle "in\\a\\test.asset" = Except.ok sampleContent ∧
    Asset CompressedBundle "missing/path" =
      Except.error (errNotFound "missing/path") :=
  ⟨(asset_lookup_contract CompressedBundle "in\\a\\test.asset").2
      AssetFn.in_a_test_asset
      { bytes := sampleContent,
        info := { name := "in/a/test.asset", size := 15, mode := 420,
                  modTime := 1431385279 } }
      (by rfl) (by rfl),
   (asset_lookup_contract CompressedBundle "missing/path").1 (by rfl)⟩

/-! ## C5 -/

/-- C5: decoding each embedded representation yields the original 15-byte
file content byte-for-byte in both encoding modes: every compressed
payload gzip-decompresses through bindataRead to exactly the bytes the raw
variant stores, and every raw loader returns its stored bytes verbatim. -/
theorem decode_encode_roundtrip :
    Compressed.in_a_test_asset_bytes = Except.ok Raw._in_a_test_asset ∧
    Compressed.in_b_test_asset_bytes = Except.ok Raw._in_b_test_asset ∧
    Compressed.in_c_test_asset_bytes = Except.ok Raw._in_c_test_asset ∧
    Compressed.in_test_asset_bytes = Except.ok Raw._in_test_asset ∧
    Raw.in_a_test_asset_bytes = Except.ok Raw._in_a_test_asset ∧
    Raw.in_b_test_asset_bytes = Except.ok Raw._in_b_test_asset ∧
    Raw.in_c_test_asset_bytes = Except.ok Raw._in_c_test_asset ∧
    Raw.in_test_asset_bytes = Except.ok Raw._in_test_asset :=
  ⟨rfl, rfl, rfl, rfl, rfl, rfl, rfl, rfl⟩

/-! ## C6 -/

/-- C6: AssetDir "" succeeds and returns exactly the top-level child
segment names of the root node — for this bundle the duplicate-free
listing ["in"]. -/
theorem assetDir_root_listing :
    AssetDir CompressedBundle "" = Except.ok ["in"] ∧
    (["in"] : List String).Nodup :=
  ⟨rfl, by simp⟩

/-! ## C7 -/

/-- C7: MustAsset is a thin wrapper around Asset: it aborts exactly when
Asset returns an error for the name, folding that error into the abort
message, and otherwise returns the identical bytes Asset returns. -/
theorem mustAsset_thin_wrapper (B : Bundle) (name : String) :
    (∀ e, Asset B name = Except.error e →
      MustAsset B name = MustResult.fatal ("asset: Asset(" ++ name ++ "): " ++ e)) ∧
    (∀ bs, Asset B name = Except.ok bs → MustAsset B name = MustResult.val bs) := by
  unfold MustAsset
  constructor
  · intro e h; rw [h]
  · intro bs h; rw [h]

/-- Witness for C7: success passes the bytes through, a miss aborts. -/
theorem mustAsset_thin_wrapper_witness :
    MustAsset CompressedBundle "in/test.asset" = MustResult.val sampleContent ∧
    MustAsset CompressedBundle "nope" =
      MustResult.fatal ("asset: Asset(nope): " ++ errNotFound "nope") :=
  ⟨(mustAsset_thin_wrapper CompressedBundle "in/test.asset").2 sampleContent (by rfl),
   (mustAsset_thin_wrapper CompressedBundle "nope").1 (errNotFound "nope") (by rfl)⟩

/-! ## C8 -/

/-- The leaves below "in" in the order RestoreAssets visits them. -/
def restoreOrder : List String :=
  ["in/a/test.asset", "in/b/test.asset", "in/c/test.asset", "in/test.asset"]

/-- The oracle on which every filesystem call succeeds. -/
def noFail : FSOracle :=
  { mkdirErr := fun _ => none, writeErr := fun _ => none, chtimesErr := fun _ => none }

/-- The oracle on which exactly the write of asset p (under "out") fails. -/
def failWriteAt (p : String) : FSOracle :=
  { mkdirErr := fun _ => none,
    writeErr := fun q => if q = _filePath "out" p then some "disk full" else none,
    chtimesErr := fun _ => none }

/-- C8: called on the directory name "in", RestoreAssets restores every
descendant leaf (all four files are written, in traversal order); and when
the write of any one descendant fails, the whole call aborts immediately
with that error while the files already written for earlier descendants
remain in place (exactly the leaves preceding the failing one). -/
theorem restoreAssets_recursive_abort :
    ((RestoreAssets CompressedBundle noFail "out" 8 "in" emptyFS).1 = Except.ok () ∧
     (RestoreAssets CompressedBundle noFail "out" 8 "in" emptyFS).2.written.map Prod.fst =
       restoreOrder.map (fun q => _filePath "out" q)) ∧
    (∀ p, p ∈ restoreOrder →
      (RestoreAssets CompressedBundle (failWriteAt p) "out" 8 "in" emptyFS).1 =
        Except.error "disk full" ∧
      (RestoreAssets CompressedBundle (failWriteAt p) "out" 8 "in"
          emptyFS).2.written.map Prod.fst =
        (restoreOrder.takeWhile (fun q => q != p)).map (fun q => _filePath "out" q)) := by
  constructor
  · exact ⟨rfl, rfl⟩
  · intro p hp
    simp only [restoreOrder, List.mem_cons, List.not_mem_nil, or_false] at hp
    rcases hp with rfl | rfl | rfl | rfl <;> exact ⟨rfl, rfl⟩

/-- Witness for C8 with the failure injected at the second leaf. -/
theorem restoreAssets_recursive_abort_witness :
    (RestoreAssets CompressedBundle (failWriteAt "in/b/test.asset") "out" 8 "in"
        emptyFS).1 = Except.error "disk full" ∧
    (RestoreAssets CompressedBundle (failWriteAt "in/b/test.asset") "out" 8 "in"
        emptyFS).2.written.map Prod.fst =
      (restoreOrder.takeWhile (fun q => q != "in/b/test.asset")).map
        (fun q => _filePath "out" q) :=
  restoreAssets_recursive_abort.2 "in/b/test.asset" (by decide)

/-! ## C9 -/

/-- C9: whenever AssetInfo succeeds — in either variant — the returned
metadata reports IsDir false and Sys nil: the public interface never
yields metadata describing a directory. -/
theorem assetInfo_isDir_sys (name : String) :
    (∀ info, AssetInfo CompressedBundle name = Except.ok info →
      info.IsDir = false ∧ info.Sys = none) ∧
    (∀ info, AssetInfo RawBundle name = Except.ok info →
      info.IsDir = false ∧ info.Sys = none) :=
  ⟨fun _ _ => ⟨rfl, rfl⟩, fun _ _ => ⟨rfl, rfl⟩⟩

/-- Witness for C9 at the asset "in/test.asset". -/
theorem assetInfo_isDir_sys_witness :
    bindataFileInfo.IsDir
        { name := "in/test.asset", size := 15, mode := 420, modTime := 1430781941 } =
      false ∧
    bindataFileInfo.Sys
        { name := "in/test.asset", size := 15, mode := 420, modTime := 1430781941 } =
      none :=
  (assetInfo_isDir_sys "in/test.asset").1
    { name := "in/test.asset", size := 15, mode := 420, modTime := 1430781941 } (by rfl)

/-! ## C10 -/

/-- C10: whenever the loader behind a name succeeds, the Size recorded in
the metadata AssetInfo returns equals the byte length of the content Asset
returns for that name, and both are 15 — in the compressed and in the raw
variant. -/
theorem assetInfo_size_matches_content (name : String) (info : bindataFileInfo)
    (bs : Bytes) :
    (AssetInfo CompressedBundle name = Except.ok info →
      Asset CompressedBundle name = Except.ok bs →
      info.size = (bs.length : Int) ∧ info.size = 15) ∧
    (AssetInfo RawBundle name = Except.ok info →
      Asset RawBundle name = Except.ok bs →
      info.size = (bs.length : Int) ∧ info.size = 15) := by
  constructor
  · intro h1 h2
    obtain ⟨fn, a, _, hr, hinfo, hbs⟩ := asset_components _ _ _ _ h1 h2
    obtain ⟨hsize, hlen⟩ := compressed_loader_size fn a hr
    subst hinfo; subst hbs
    rw [hsize, hlen]
    exact ⟨rfl, rfl⟩
  · intro h1 h2
    obtain ⟨fn, a, _, hr, hinfo, hbs⟩ := asset_components _ _ _ _ h1 h2
    obtain ⟨hsize, hlen⟩ := raw_loader_size fn a hr
    subst hinfo; subst hbs
    rw [hsize, hlen]
    exact ⟨rfl, rfl⟩

/-- Witness for C10 at "in/a/test.asset" in the compressed variant. -/
theorem assetInfo_size_matches_content_witness :
    bindataFileInfo.size
        { name := "in/a/test.asset", size := 15, mode := 420, modTime := 1431385279 } =
      ((sampleContent.length : Int)) ∧
    bindataFileInfo.size
        { name := "in/a/test.asset", size := 15, mode := 420, modTime := 1431385279 } =
      15 :=
  (assetInfo_size_matches_content "in/a/test.asset"
    { name := "in/a/test.asset", size := 15, mode := 420, modTime := 1431385279 }
    sampleContent).1 (by rfl) (by rfl)

end GoBindata

